import Mathlib

/-!
Shallow embedding of `src/edu_web/src/utils/agora-rtc-client.ts`.

The file wraps the Agora RTC SDK: a session class `AgoraRTCClient` owning one
SDK client and at most one local stream, and a coordinator `AgoraWebClient`
owning a primary session plus an optional screen-share session.

The SDK itself is external: every SDK callback outcome is an oracle parameter
(`SdkRes` for plain success/failure callbacks, `Option (Nat × String)` for the
error-only callbacks of `publish`/`unpublish`, whose promises otherwise settle
on a 300 ms timer).  Promise settlement follows JavaScript semantics: the
first call to resolve/reject wins, later ones are no-ops; state mutations
scheduled by `setTimeout` still run after a rejection, so an operation's
returned state is the eventual quiescent state once all timers have fired.
-/

/-- Outcome of an SDK callback pair (success callback / failure callback). -/
inductive SdkRes
  | ok
  | err (e : String)
  deriving DecidableEq, Repr

/-- How a wrapped promise settled: `resolved t` / `rejected t e` at time `t`
(milliseconds after the call; synchronous resolution is time 0). -/
inductive Settle
  | resolved (t : Nat)
  | rejected (t : Nat) (e : String)
  deriving DecidableEq, Repr

/-- Observable calls made by the adapter, recorded as a trace so ordering and
counting claims can be stated. -/
inductive Call
  | sdkClientInit
  | subscribeClientEventsCall
  | unsubscribeClientEventsCall
  | sdkCreateStream
  | sdkStreamInit
  | subscribeStreamEventsCall
  | sdkSetAudioOutput (deviceId : String)
  | sdkPublish
  | sdkUnpublish
  | sdkJoin (uid : Int) (channel : String)
  | sdkLeave
  | sdkEnableDual
  | sdkSubscribe
  | destroyLocalStreamCall
  | clearTimerCall
  deriving DecidableEq, Repr

/-- `audioOutput` field of `AgoraStreamSpec` (source lines 12-15). -/
structure AudioOutput where
  volume : Int
  deviceId : String
  deriving DecidableEq, Repr

/-- `AgoraStreamSpec` (source lines 4-16).  Optional fields are `Option`;
JavaScript truthiness of `deviceId` is an emptiness test on the string. -/
structure AgoraStreamSpec where
  streamID : Int
  video : Bool
  audio : Bool
  mirror : Option Bool
  screen : Option Bool
  microphoneId : Option String
  cameraId : Option String
  audioOutput : Option AudioOutput
  deriving DecidableEq, Repr

/-- Oracle fixing the outcome of every SDK callback an operation may hit.
`publishErrAt`/`unpublishErrAt` give the time and payload of the error-only
callback of `client.publish`/`client.unpublish` (`none` = never fires). -/
structure SdkOracle where
  initRes : SdkRes
  streamInitRes : SdkRes
  audioRes : SdkRes
  joinRes : SdkRes
  leaveRes : SdkRes
  dualRes : SdkRes
  publishErrAt : Option (Nat × String)
  unpublishErrAt : Option (Nat × String)
  subscribeErr : Option String
  deriving DecidableEq, Repr

/-- The all-success oracle. -/
def okOracle : SdkOracle :=
  ⟨SdkRes.ok, SdkRes.ok, SdkRes.ok, SdkRes.ok, SdkRes.ok, SdkRes.ok, none, none, none⟩

/-- Mutable state of one `AgoraRTCClient` (source lines 45-58): the flags
`_init`, `_joined`, `_published`, the local stream reference (modelled by
presence), `streamID` (`none` = JavaScript `null`) and the RTT interval
timer (modelled by whether it is set). -/
structure RTCState where
  init : Bool
  joined : Bool
  published : Bool
  localStream : Bool
  streamID : Option Int
  internalTimer : Bool
  deriving DecidableEq, Repr

/-- Freshly constructed `AgoraRTCClient` (field initialisers + constructor). -/
def initialRTC : RTCState :=
  ⟨false, false, false, false, none, false⟩

/-- Result of one promisified session operation: eventual state, trace of
calls made, and how the returned promise settled. -/
structure SessionResult where
  state : RTCState
  calls : List Call
  settle : Settle
  deriving DecidableEq, Repr

namespace AgoraRTCClient

/-- `initClient` (source lines 61-71): no-op if `_init`; otherwise runs the
SDK `init` callback, setting `_init := true` on success. -/
def initClient (s : RTCState) (r : SdkRes) : SessionResult :=
  if s.init then ⟨s, [], Settle.resolved 0⟩
  else
    match r with
    | SdkRes.ok => ⟨{ s with init := true }, [Call.sdkClientInit], Settle.resolved 0⟩
    | SdkRes.err e => ⟨s, [Call.sdkClientInit], Settle.rejected 0 e⟩

/-- `createClient` (source lines 74-85): `initClient`, then subscribe client
events, then (when `enableRtt` is truthy) start the 100 ms RTT interval. -/
def createClient (s : RTCState) (enableRtt : Bool) (r : SdkRes) : SessionResult :=
  let i := initClient s r
  match i.settle with
  | Settle.rejected t e => ⟨i.state, i.calls, Settle.rejected t e⟩
  | Settle.resolved _ =>
    let s1 := if enableRtt then { i.state with internalTimer := true } else i.state
    ⟨s1, i.calls ++ [Call.subscribeClientEventsCall], Settle.resolved 0⟩

/-- `publish` (source lines 137-150): resolve immediately when already
published; otherwise call SDK `publish` with an error-only callback and
`setTimeout(() =\x7b resolve(); this._published = true \x7d, 300)`.  The timer
always fires, so the eventual state has `published = true` even when the
error callback rejected the promise first. -/
def publish (s : RTCState) (errAt : Option (Nat × String)) : SessionResult :=
  if s.published then ⟨s, [], Settle.resolved 0⟩
  else
    let settle :=
      match errAt with
      | some (t, e) => if t < 300 then Settle.rejected t e else Settle.resolved 300
      | none => Settle.resolved 300
    ⟨{ s with published := true }, [Call.sdkPublish], settle⟩

/-- `destroyLocalStream` (source lines 199-209): unsubscribe stream events,
stop/close the stream when present, null the reference and set `streamID`
to `0` (the number zero, not the initial `null`). -/
def destroyLocalStream (s : RTCState) : RTCState :=
  { s with localStream := false, streamID := some 0 }

/-- `unpublish` (source lines 152-166): resolve immediately when not
published or no local stream; otherwise call SDK `unpublish` with an
error-only callback and a 300 ms timer that resolves, destroys the local
stream and clears `_published` — again the timer fires even after a
rejection. -/
def unpublish (s : RTCState) (errAt : Option (Nat × String)) : SessionResult :=
  if !s.published || !s.localStream then ⟨s, [], Settle.resolved 0⟩
  else
    let settle :=
      match errAt with
      | some (t, e) => if t < 300 then Settle.rejected t e else Settle.resolved 300
      | none => Settle.resolved 300
    ⟨{ destroyLocalStream s with published := false },
      [Call.sdkUnpublish, Call.destroyLocalStreamCall], settle⟩

/-- JavaScript truthiness of `data.audioOutput && data.audioOutput.deviceId`
(source line 185): the object is present and the device id is non-empty. -/
def audioGuard (spec : AgoraStreamSpec) : Bool :=
  match spec.audioOutput with
  | some ao => ao.deviceId != ""
  | none => false

/-- Device id used by the guard (empty when the guard is false). -/
def audioDeviceId (spec : AgoraStreamSpec) : String :=
  match spec.audioOutput with
  | some ao => ao.deviceId
  | none => ""

/-- `createLocalStream` (source lines 178-197).  `AgoraRTC.createStream` is
assigned to `_localStream` before the promise body runs, so the reference is
present even when stream init later fails.  On init success the code sets
`streamID`, subscribes stream events, kicks off `setAudioOutput` when the
guard holds — and then calls `resolve()` unconditionally on line 192, in the
same synchronous tick; the `.then(resolve)` / `.catch(reject)` continuations
of `setAudioOutput` run later and are no-ops on the already-settled promise.
Hence the settle outcome is independent of `audioRes`. -/
def createLocalStream (s : RTCState) (spec : AgoraStreamSpec)
    (initRes : SdkRes) (audioRes : SdkRes) : SessionResult :=
  let s0 := { s with localStream := true }
  match initRes with
  | SdkRes.err e => ⟨s0, [Call.sdkCreateStream, Call.sdkStreamInit], Settle.rejected 0 e⟩
  | SdkRes.ok =>
    let s1 := { s0 with streamID := some spec.streamID }
    let baseCalls := [Call.sdkCreateStream, Call.sdkStreamInit, Call.subscribeStreamEventsCall]
    if audioGuard spec then
      ⟨s1, baseCalls ++ [Call.sdkSetAudioOutput (audioDeviceId spec)], Settle.resolved 0⟩
    else
      ⟨s1, baseCalls, Settle.resolved 0⟩

/-- `join` (source lines 211-215): plain promisified SDK join. -/
def join (s : RTCState) (uid : Int) (channel : String) (r : SdkRes) : SessionResult :=
  match r with
  | SdkRes.ok => ⟨s, [Call.sdkJoin uid channel], Settle.resolved 0⟩
  | SdkRes.err e => ⟨s, [Call.sdkJoin uid channel], Settle.rejected 0 e⟩

/-- `leave` (source lines 217-223): the `_client` reference always exists in
this class, so the guard is always taken; plain promisified SDK leave. -/
def leave (s : RTCState) (r : SdkRes) : SessionResult :=
  match r with
  | SdkRes.ok => ⟨s, [Call.sdkLeave], Settle.resolved 0⟩
  | SdkRes.err e => ⟨s, [Call.sdkLeave], Settle.rejected 0 e⟩

/-- Result of `subscribe`: state, trace, console log, and the channel on
which an error could have been surfaced to the caller. -/
structure SubscribeResult where
  state : RTCState
  calls : List Call
  log : List String
  result : Except String Unit

/-- `subscribe` (source lines 235-239): synchronous; the SDK failure callback
only writes `"[rtc-client] subscribe failed: ..."` to the console.  No path
of the function throws or rejects, so `result` is `ok` on every input. -/
def subscribe (s : RTCState) (errOpt : Option String) : SubscribeResult :=
  ⟨s, [Call.sdkSubscribe],
    (match errOpt with
     | some e => ["[rtc-client] subscribe failed: " ++ e]
     | none => []),
    Except.ok ()⟩

/-- `destroy` (source lines 241-245): clear the RTT interval, then
`destroyLocalStream`.  Note it touches neither `_init` nor `_joined` nor
`_published`. -/
def destroy (s : RTCState) : RTCState :=
  destroyLocalStream { s with internalTimer := false }

/-- Trace of `destroy`. -/
def destroyCalls : List Call :=
  [Call.clearTimerCall, Call.destroyLocalStreamCall]

/-- `destroyClient` (source lines 88-90): only unsubscribes client events. -/
def destroyClient (s : RTCState) : RTCState := s

/-- Trace of `destroyClient`. -/
def destroyClientCalls : List Call :=
  [Call.unsubscribeClientEventsCall]

end AgoraRTCClient

/-- `SHARE_ID` (source line 43): fixed stream id reserved for screen share. -/
def SHARE_ID : Int := 7

/-- Mutable state of the coordinator `AgoraWebClient` (source lines 267-287). -/
structure WebClientState where
  rtc : RTCState
  shareClient : Option RTCState
  localUid : Int
  channel : String
  shared : Bool
  joined : Bool
  published : Bool
  deriving DecidableEq, Repr

/-- Freshly constructed `AgoraWebClient` (source lines 278-287). -/
def initialWeb : WebClientState :=
  ⟨initialRTC, none, 0, "", false, false, false⟩

/-- Result of one coordinator operation: eventual state, trace, and whether
the awaited chain completed (`Except.ok`) or threw (`Except.error`). -/
structure CoordResult where
  state : WebClientState
  calls : List Call
  result : Except String Unit

namespace AgoraWebClient

/-- `joinChannel` (source lines 305-312): record uid/channel, create the
primary client with RTT monitoring, join, optionally enable dual stream,
then set `joined := true`.  Any rejection propagates, leaving the
already-performed mutations in place. -/
def joinChannel (s : WebClientState) (uid : Int) (channel : String)
    (dual : Bool) (o : SdkOracle) : CoordResult :=
  let s1 := { s with localUid := uid, channel := channel }
  let r1 := AgoraRTCClient.createClient s1.rtc true o.initRes
  let s2 := { s1 with rtc := r1.state }
  match r1.settle with
  | Settle.rejected _ e => ⟨s2, r1.calls, Except.error e⟩
  | Settle.resolved _ =>
    let r2 := AgoraRTCClient.join s2.rtc uid channel o.joinRes
    let s3 := { s2 with rtc := r2.state }
    match r2.settle with
    | Settle.rejected _ e => ⟨s3, r1.calls ++ r2.calls, Except.error e⟩
    | Settle.resolved _ =>
      if dual then
        match o.dualRes with
        | SdkRes.err e => ⟨s3, r1.calls ++ r2.calls ++ [Call.sdkEnableDual], Except.error e⟩
        | SdkRes.ok =>
          ⟨{ s3 with joined := true }, r1.calls ++ r2.calls ++ [Call.sdkEnableDual], Except.ok ()⟩
      else ⟨{ s3 with joined := true }, r1.calls ++ r2.calls, Except.ok ()⟩

/-- `unpublishLocalStream` (source lines 339-343): await the session's
`unpublish`, then clear the coordinator's `published` flag.  When `unpublish`
rejects, the flag assignment is skipped, but the session's timer effects
(stream teardown, `_published := false`) still land in the eventual state. -/
def unpublishLocalStream (s : WebClientState) (o : SdkOracle) : CoordResult :=
  let r := AgoraRTCClient.unpublish s.rtc o.unpublishErrAt
  let s1 := { s with rtc := r.state }
  match r.settle with
  | Settle.rejected _ e => ⟨s1, r.calls, Except.error e⟩
  | Settle.resolved _ => ⟨{ s1 with published := false }, r.calls, Except.ok ()⟩

/-- Continuation of `publishLocalStream` after the optional unpublish:
create the local stream, publish, set `published := true`. -/
def publishLocalCont (s : WebClientState) (spec : AgoraStreamSpec)
    (o : SdkOracle) (acc : List Call) : CoordResult :=
  let r1 := AgoraRTCClient.createLocalStream s.rtc spec o.streamInitRes o.audioRes
  let s1 := { s with rtc := r1.state }
  match r1.settle with
  | Settle.rejected _ e => ⟨s1, acc ++ r1.calls, Except.error e⟩
  | Settle.resolved _ =>
    let r2 := AgoraRTCClient.publish s1.rtc o.publishErrAt
    let s2 := { s1 with rtc := r2.state }
    match r2.settle with
    | Settle.rejected _ e => ⟨s2, acc ++ r1.calls ++ r2.calls, Except.error e⟩
    | Settle.resolved _ =>
      ⟨{ s2 with published := true }, acc ++ r1.calls ++ r2.calls, Except.ok ()⟩

/-- `publishLocalStream` (source lines 328-337): when already published,
first run `unpublishLocalStream`; then create the stream and publish. -/
def publishLocalStream (s : WebClientState) (spec : AgoraStreamSpec)
    (o : SdkOracle) : CoordResult :=
  if s.published then
    let u := unpublishLocalStream s o
    match u.result with
    | Except.error e => ⟨u.state, u.calls, Except.error e⟩
    | Except.ok _ => publishLocalCont u.state spec o u.calls
  else publishLocalCont s spec o []

/-- `leaveChannel` (source lines 314-322): zero uid/channel, unpublish,
leave, destroy the session state, destroy the client, set `joined := false`. -/
def leaveChannel (s : WebClientState) (o : SdkOracle) : CoordResult :=
  let s0 := { s with localUid := 0, channel := "" }
  let u := unpublishLocalStream s0 o
  match u.result with
  | Except.error e => ⟨u.state, u.calls, Except.error e⟩
  | Except.ok _ =>
    let l := AgoraRTCClient.leave u.state.rtc o.leaveRes
    let s1 := { u.state with rtc := l.state }
    match l.settle with
    | Settle.rejected _ e => ⟨s1, u.calls ++ l.calls, Except.error e⟩
    | Settle.resolved _ =>
      let rtc2 := AgoraRTCClient.destroyClient (AgoraRTCClient.destroy s1.rtc)
      ⟨{ s1 with rtc := rtc2, joined := false },
        u.calls ++ l.calls ++ AgoraRTCClient.destroyCalls ++ AgoraRTCClient.destroyClientCalls,
        Except.ok ()⟩

/-- The stream spec `startScreenShare` passes to `createLocalStream`
(source lines 347-354). -/
def shareSpec : AgoraStreamSpec :=
  ⟨SHARE_ID, false, true, none, some true, some "", some "", none⟩

/-- `startScreenShare` (source lines 345-359): fresh session into
`shareClient`, create its (screen) local stream, create its client (no RTT
argument, hence falsy), join with `SHARE_ID`, publish, then
`shared := true`. -/
def startScreenShare (s : WebClientState) (o : SdkOracle) : CoordResult :=
  let r1 := AgoraRTCClient.createLocalStream initialRTC shareSpec o.streamInitRes o.audioRes
  let s1 := { s with shareClient := some r1.state }
  match r1.settle with
  | Settle.rejected _ e => ⟨s1, r1.calls, Except.error e⟩
  | Settle.resolved _ =>
    let r2 := AgoraRTCClient.createClient r1.state false o.initRes
    let s2 := { s1 with shareClient := some r2.state }
    match r2.settle with
    | Settle.rejected _ e => ⟨s2, r1.calls ++ r2.calls, Except.error e⟩
    | Settle.resolved _ =>
      let r3 := AgoraRTCClient.join r2.state SHARE_ID s.channel o.joinRes
      let s3 := { s2 with shareClient := some r3.state }
      match r3.settle with
      | Settle.rejected _ e => ⟨s3, r1.calls ++ r2.calls ++ r3.calls, Except.error e⟩
      | Settle.resolved _ =>
        let r4 := AgoraRTCClient.publish r3.state o.publishErrAt
        let s4 := { s3 with shareClient := some r4.state }
        match r4.settle with
        | Settle.rejected _ e => ⟨s4, r1.calls ++ r2.calls ++ r3.calls ++ r4.calls, Except.error e⟩
        | Settle.resolved _ =>
          ⟨{ s4 with shared := true },
            r1.calls ++ r2.calls ++ r3.calls ++ r4.calls, Except.ok ()⟩

/-- `stopScreenShare` (source lines 361-367): unpublish, leave, destroy,
destroyClient on the share session, then `shared := false`.  Any rejection
propagates and skips the flag reset; a `null` share session throws
immediately on the first method access. -/
def stopScreenShare (s : WebClientState) (o : SdkOracle) : CoordResult :=
  match s.shareClient with
  | none => ⟨s, [], Except.error "TypeError: shareClient is null"⟩
  | some sc =>
    let r1 := AgoraRTCClient.unpublish sc o.unpublishErrAt
    let s1 := { s with shareClient := some r1.state }
    match r1.settle with
    | Settle.rejected _ e => ⟨s1, r1.calls, Except.error e⟩
    | Settle.resolved _ =>
      let r2 := AgoraRTCClient.leave r1.state o.leaveRes
      let s2 := { s1 with shareClient := some r2.state }
      match r2.settle with
      | Settle.rejected _ e => ⟨s2, r1.calls ++ r2.calls, Except.error e⟩
      | Settle.resolved _ =>
        let sc3 := AgoraRTCClient.destroyClient (AgoraRTCClient.destroy r2.state)
        ⟨{ s2 with shareClient := some sc3, shared := false },
          r1.calls ++ r2.calls ++ AgoraRTCClient.destroyCalls ++ AgoraRTCClient.destroyClientCalls,
          Except.ok ()⟩

/-- Final phase of `exit` (source lines 375-378): when a share session
exists, destroy it and its client.  Note `shared` is not touched. -/
def exitDestroyPhase (s : WebClientState) (acc : List Call) : CoordResult :=
  match s.shareClient with
  | none => ⟨s, acc, Except.ok ()⟩
  | some sc =>
    let sc2 := AgoraRTCClient.destroyClient (AgoraRTCClient.destroy sc)
    ⟨{ s with shareClient := some sc2 },
      acc ++ AgoraRTCClient.destroyCalls ++ AgoraRTCClient.destroyClientCalls, Except.ok ()⟩

/-- `exit` (source lines 369-379): leave the primary channel; when `shared`
is true, unpublish and leave the share session; when a share session exists,
destroy it.  `shared` is never reset here. -/
def exit (s : WebClientState) (o oShare : SdkOracle) : CoordResult :=
  let l := leaveChannel s o
  match l.result with
  | Except.error e => ⟨l.state, l.calls, Except.error e⟩
  | Except.ok _ =>
    let s1 := l.state
    if s1.shared then
      match s1.shareClient with
      | none => ⟨s1, l.calls, Except.error "TypeError: shareClient is null"⟩
      | some sc =>
        let r1 := AgoraRTCClient.unpublish sc oShare.unpublishErrAt
        let s2 := { s1 with shareClient := some r1.state }
        match r1.settle with
        | Settle.rejected _ e => ⟨s2, l.calls ++ r1.calls, Except.error e⟩
        | Settle.resolved _ =>
          let r2 := AgoraRTCClient.leave r1.state oShare.leaveRes
          let s3 := { s2 with shareClient := some r2.state }
          match r2.settle with
          | Settle.rejected _ e => ⟨s3, l.calls ++ r1.calls ++ r2.calls, Except.error e⟩
          | Settle.resolved _ => exitDestroyPhase s3 (l.calls ++ r1.calls ++ r2.calls)
    else exitDestroyPhase s1 l.calls

end AgoraWebClient

/-- Coordinator states reachable from a fresh `AgoraWebClient` by the
coordinator's public operations, under every possible SDK oracle — including
runs in which an operation rejected after mutating part of the state. -/
inductive Reach : WebClientState → Prop
  | start : Reach initialWeb
  | joinChannel (s : WebClientState) (uid : Int) (ch : String) (dual : Bool) (o : SdkOracle) :
      Reach s → Reach (AgoraWebClient.joinChannel s uid ch dual o).state
  | leaveChannel (s : WebClientState) (o : SdkOracle) :
      Reach s → Reach (AgoraWebClient.leaveChannel s o).state
  | publishLocalStream (s : WebClientState) (spec : AgoraStreamSpec) (o : SdkOracle) :
      Reach s → Reach (AgoraWebClient.publishLocalStream s spec o).state
  | unpublishLocalStream (s : WebClientState) (o : SdkOracle) :
      Reach s → Reach (AgoraWebClient.unpublishLocalStream s o).state
  | startScreenShare (s : WebClientState) (o : SdkOracle) :
      Reach s → Reach (AgoraWebClient.startScreenShare s o).state
  | stopScreenShare (s : WebClientState) (o : SdkOracle) :
      Reach s → Reach (AgoraWebClient.stopScreenShare s o).state
  | exit (s : WebClientState) (o oShare : SdkOracle) :
      Reach s → Reach (AgoraWebClient.exit s o oShare).state

/-- The share session is live: it exists and its publish sequence completed
(the session's `_published` flag, the last flag `startScreenShare`'s
sub-steps set, is true). -/
def shareLive (s : WebClientState) : Bool :=
  match s.shareClient with
  | some rc => rc.published
  | none => false

/-- A session that has initialised, created a local stream and published. -/
def rcPublished : RTCState :=
  ⟨true, false, true, true, some 7, false⟩

/-- A session with a local stream created but not yet published. -/
def rcUnpublished : RTCState :=
  ⟨true, false, false, true, some 7, false⟩

/-- C3 failing input: a stream spec carrying an audio-output device id. -/
def specAudio : AgoraStreamSpec :=
  ⟨5, true, true, none, none, some "", some "", some ⟨100, "speaker-1"⟩⟩

/-- A coordinator state with an active screen share: primary session and
share session both published. -/
def webShared : WebClientState :=
  ⟨rcPublished, some rcPublished, 42, "room1", true, true, true⟩

/-- A joined, published coordinator state without a screen share. -/
def webJoined : WebClientState :=
  ⟨{ rcPublished with internalTimer := true }, none, 42, "room1", false, true, true⟩

/-- Oracle whose SDK `leave` call rejects; everything else succeeds. -/
def leaveFailOracle : SdkOracle :=
  ⟨SdkRes.ok, SdkRes.ok, SdkRes.ok, SdkRes.ok, SdkRes.err "leave failed", SdkRes.ok,
    none, none, none⟩

/-- Coordinator state after `joinChannel` with uid 7 (all SDK calls succeed):
the uid collides with `SHARE_ID`. -/
def webUid7 : WebClientState :=
  (AgoraWebClient.joinChannel initialWeb 7 "room1" false okOracle).state

/-- Coordinator state after a successful `startScreenShare` from fresh. -/
def webAfterShare : WebClientState :=
  (AgoraWebClient.startScreenShare initialWeb okOracle).state

/-- Coordinator state after a successful `exit` following the screen share:
`exit` unpublishes, leaves and destroys the share session but never resets
`shared`. -/
def webAfterExit : WebClientState :=
  (AgoraWebClient.exit webAfterShare okOracle okOracle).state

/-- C5: `publish` on an already-published session resolves immediately with
no SDK publish call and an unchanged session; on a non-published session it
makes exactly one SDK publish call, resolves after the fixed 300 ms timer
whenever the SDK error callback does not fire (resolution is purely
timer-driven: the code registers no success callback, so no SDK completion
signal can influence it), and the timer then sets `_published` to true. -/
theorem C5_publish_contract (s : RTCState) (errAt : Option (Nat × String)) :
    (s.published = true → AgoraRTCClient.publish s errAt = ⟨s, [], Settle.resolved 0⟩)
    ∧ (s.published = false →
        (AgoraRTCClient.publish s errAt).calls = [Call.sdkPublish]
        ∧ (errAt = none → (AgoraRTCClient.publish s errAt).settle = Settle.resolved 300)
        ∧ (AgoraRTCClient.publish s errAt).state.published = true) := by
  constructor
  · intro h
    simp [AgoraRTCClient.publish, h]
  · intro h
    refine ⟨?_, ?_, ?_⟩
    · simp [AgoraRTCClient.publish, h]
    · intro he
      simp [AgoraRTCClient.publish, h, he]
    · simp [AgoraRTCClient.publish, h]

/-- Witness for C5 at a concrete non-published session. -/
theorem C5_publish_contract_witness :
    (AgoraRTCClient.publish rcUnpublished none).calls = [Call.sdkPublish]
    ∧ (AgoraRTCClient.publish rcUnpublished none).settle = Settle.resolved 300
    ∧ (AgoraRTCClient.publish rcUnpublished none).state.published = true :=
  ⟨((C5_publish_contract rcUnpublished none).2 rfl).1,
   ((C5_publish_contract rcUnpublished none).2 rfl).2.1 rfl,
   ((C5_publish_contract rcUnpublished none).2 rfl).2.2⟩

/-- C6: `unpublish` when not published or without a local stream resolves
immediately, calls nothing and leaves the session unchanged; otherwise it
makes exactly one SDK unpublish call, resolves after the fixed 300 ms timer
when the SDK error callback does not fire, and the timer tears down the
local stream and clears `_published`. -/
theorem C6_unpublish_contract (s : RTCState) (errAt : Option (Nat × String)) :
    ((s.published = false ∨ s.localStream = false) →
        AgoraRTCClient.unpublish s errAt = ⟨s, [], Settle.resolved 0⟩)
    ∧ (s.published = true → s.localStream = true →
        (AgoraRTCClient.unpublish s errAt).calls =
          [Call.sdkUnpublish, Call.destroyLocalStreamCall]
        ∧ (errAt = none → (AgoraRTCClient.unpublish s errAt).settle = Settle.resolved 300)
        ∧ (AgoraRTCClient.unpublish s errAt).state.published = false
        ∧ (AgoraRTCClient.unpublish s errAt).state.localStream = false) := by
  constructor
  · intro h
    rcases h with h | h <;> simp [AgoraRTCClient.unpublish, h]
  · intro hp hl
    refine ⟨?_, ?_, ?_, ?_⟩
    · simp [AgoraRTCClient.unpublish, hp, hl]
    · intro he
      simp [AgoraRTCClient.unpublish, hp, hl, he]
    · simp [AgoraRTCClient.unpublish, AgoraRTCClient.destroyLocalStream, hp, hl]
    · simp [AgoraRTCClient.unpublish, AgoraRTCClient.destroyLocalStream, hp, hl]

/-- Witness for C6 at a concrete published session with a local stream. -/
theorem C6_unpublish_contract_witness :
    (AgoraRTCClient.unpublish rcPublished none).calls =
      [Call.sdkUnpublish, Call.destroyLocalStreamCall]
    ∧ (AgoraRTCClient.unpublish rcPublished none).settle = Settle.resolved 300
    ∧ (AgoraRTCClient.unpublish rcPublished none).state.published = false
    ∧ (AgoraRTCClient.unpublish rcPublished none).state.localStream = false :=
  ⟨((C6_unpublish_contract rcPublished none).2 rfl rfl).1,
   ((C6_unpublish_contract rcPublished none).2 rfl rfl).2.1 rfl,
   ((C6_unpublish_contract rcPublished none).2 rfl rfl).2.2.1,
   ((C6_unpublish_contract rcPublished none).2 rfl rfl).2.2.2⟩

/-- C9: a failed SDK subscription never rejects or reaches the caller: for
every SDK failure value the call returns normally (`Except.ok`), leaves the
session state untouched, makes exactly the one SDK subscribe call, and the
failure shows up only as a console log line. -/
theorem C9_subscribe_failure_only_logged (s : RTCState) (errOpt : Option String) :
    (AgoraRTCClient.subscribe s errOpt).result = Except.ok ()
    ∧ (AgoraRTCClient.subscribe s errOpt).state = s
    ∧ (AgoraRTCClient.subscribe s errOpt).calls = [Call.sdkSubscribe]
    ∧ (∀ e, errOpt = some e →
        (AgoraRTCClient.subscribe s errOpt).log = ["[rtc-client] subscribe failed: " ++ e])
    ∧ (errOpt = none → (AgoraRTCClient.subscribe s errOpt).log = []) := by
  refine ⟨rfl, rfl, rfl, ?_, ?_⟩
  · intro e he
    simp [AgoraRTCClient.subscribe, he]
  · intro he
    simp [AgoraRTCClient.subscribe, he]

/-- Witness for C9 at a concrete failing subscription. -/
theorem C9_subscribe_failure_only_logged_witness :
    (AgoraRTCClient.subscribe rcPublished (some "NO_SUCH_STREAM")).result = Except.ok ()
    ∧ (AgoraRTCClient.subscribe rcPublished (some "NO_SUCH_STREAM")).log =
        ["[rtc-client] subscribe failed: " ++ "NO_SUCH_STREAM"] :=
  ⟨(C9_subscribe_failure_only_logged rcPublished (some "NO_SUCH_STREAM")).1,
   (C9_subscribe_failure_only_logged rcPublished (some "NO_SUCH_STREAM")).2.2.2.1
     "NO_SUCH_STREAM" rfl⟩

/-- C10: when the SDK error callback fires before the 300 ms timer, the
promise rejects, yet the timer still mutates the session: a rejecting
`publish` still ends with `_published = true`, and a rejecting `unpublish`
still destroys the local stream and clears `_published` — the state change
is not atomic with the promise outcome. -/
theorem C10_reject_still_mutates (s sp : RTCState) (t tp : Nat) (e ep : String)
    (hp : s.published = false) (ht : t < 300)
    (hq : sp.published = true) (hl : sp.localStream = true) (htp : tp < 300) :
    (AgoraRTCClient.publish s (some (t, e))).settle = Settle.rejected t e
    ∧ (AgoraRTCClient.publish s (some (t, e))).state.published = true
    ∧ (AgoraRTCClient.unpublish sp (some (tp, ep))).settle = Settle.rejected tp ep
    ∧ (AgoraRTCClient.unpublish sp (some (tp, ep))).state.published = false
    ∧ (AgoraRTCClient.unpublish sp (some (tp, ep))).state.localStream = false := by
  refine ⟨?_, ?_, ?_, ?_, ?_⟩ <;>
    simp [AgoraRTCClient.publish, AgoraRTCClient.unpublish,
      AgoraRTCClient.destroyLocalStream, hp, ht, hq, hl, htp]

/-- Witness for C10 at concrete sessions with the error callback at 100 ms. -/
theorem C10_reject_still_mutates_witness :
    (AgoraRTCClient.publish rcUnpublished (some (100, "PUBLISH_FAILED"))).settle =
      Settle.rejected 100 "PUBLISH_FAILED"
    ∧ (AgoraRTCClient.publish rcUnpublished (some (100, "PUBLISH_FAILED"))).state.published = true
    ∧ (AgoraRTCClient.unpublish rcPublished (some (100, "UNPUBLISH_FAILED"))).settle =
        Settle.rejected 100 "UNPUBLISH_FAILED"
    ∧ (AgoraRTCClient.unpublish rcPublished (some (100, "UNPUBLISH_FAILED"))).state.published = false
    ∧ (AgoraRTCClient.unpublish rcPublished (some (100, "UNPUBLISH_FAILED"))).state.localStream = false :=
  C10_reject_still_mutates rcUnpublished rcPublished 100 100 "PUBLISH_FAILED" "UNPUBLISH_FAILED"
    rfl (by decide) rfl rfl (by decide)

/-- C2 counterexample: on an initialised, published session, `destroy` leaves
`_init` and `_published` true and sets `streamID` to `0`, none of which are
the initial values (`false`, `false`, `null`), refuting "resets all flags to
initial values". -/
theorem C2_counterexample :
    (AgoraRTCClient.destroy rcPublished).published = true
    ∧ (AgoraRTCClient.destroy rcPublished).init = true
    ∧ (AgoraRTCClient.destroy rcPublished).streamID = some 0
    ∧ initialRTC.published = false
    ∧ initialRTC.init = false
    ∧ initialRTC.streamID = none := by
  refine ⟨rfl, rfl, rfl, rfl, rfl, rfl⟩

/-- C2 amended: `destroy` cancels the internal timer and tears down the local
stream (`localStream` false, `streamID` reset to `0`, not the initial
`null`), leaves `_init`, `_joined` and `_published` untouched, and is
idempotent: applying it again changes nothing. -/
theorem C2_destroy_amended (s : RTCState) :
    (AgoraRTCClient.destroy s).localStream = false
    ∧ (AgoraRTCClient.destroy s).streamID = some 0
    ∧ (AgoraRTCClient.destroy s).internalTimer = false
    ∧ (AgoraRTCClient.destroy s).init = s.init
    ∧ (AgoraRTCClient.destroy s).joined = s.joined
    ∧ (AgoraRTCClient.destroy s).published = s.published
    ∧ AgoraRTCClient.destroy (AgoraRTCClient.destroy s) = AgoraRTCClient.destroy s :=
  ⟨rfl, rfl, rfl, rfl, rfl, rfl, rfl⟩

/-- C3 (code bug): with a spec carrying an audio-output device id and an SDK
`setAudioOutput` that fails, `createLocalStream` still resolves — line 192's
unconditional `resolve()` runs synchronously before `setAudioOutput`
settles, so the `.then(resolve)` / `.catch(reject)` continuations written
for it are dead code.  The SDK `setAudioOutput` call is made, but the
operation's entire result is independent of its outcome, contradicting the
spec's "applies it before resolving" / reject-on-failure contract. -/
theorem C3_audio_output_swallowed :
    (AgoraRTCClient.createLocalStream initialRTC specAudio SdkRes.ok
        (SdkRes.err "setAudioOutput failed")).settle = Settle.resolved 0
    ∧ Call.sdkSetAudioOutput "speaker-1" ∈
        (AgoraRTCClient.createLocalStream initialRTC specAudio SdkRes.ok
          (SdkRes.err "setAudioOutput failed")).calls
    ∧ AgoraRTCClient.createLocalStream initialRTC specAudio SdkRes.ok
        (SdkRes.err "setAudioOutput failed")
      = AgoraRTCClient.createLocalStream initialRTC specAudio SdkRes.ok SdkRes.ok := by
  refine ⟨rfl, ?_, rfl⟩
  decide

/-- C1 counterexample: from a coordinator state with an active screen-share
session, `stopScreenShare` under an SDK whose `leave` rejects ends with the
rejection propagated and `shared` still `true` — the flag reset on source
line 366 is skipped, refuting "shared is false even if the leave call
fails". -/
theorem C1_counterexample :
    (AgoraWebClient.stopScreenShare webShared leaveFailOracle).result =
      Except.error "leave failed"
    ∧ (AgoraWebClient.stopScreenShare webShared leaveFailOracle).state.shared = true := by
  refine ⟨rfl, rfl⟩

/-- C1 amended: `stopScreenShare` clears `shared` exactly when its awaited
teardown chain succeeds: with a share session present and no unpublish
error, an SDK `leave` success yields `shared = false` and a normal return,
while an SDK `leave` rejection propagates the error and leaves `shared` at
its prior value. -/
theorem C1_stopShare_amended (s : WebClientState) (o : SdkOracle) (rc : RTCState)
    (hs : s.shareClient = some rc) (hu : o.unpublishErrAt = none) :
    (o.leaveRes = SdkRes.ok →
      (AgoraWebClient.stopScreenShare s o).state.shared = false
      ∧ (AgoraWebClient.stopScreenShare s o).result = Except.ok ())
    ∧ (∀ e, o.leaveRes = SdkRes.err e →
      (AgoraWebClient.stopScreenShare s o).state.shared = s.shared
      ∧ (AgoraWebClient.stopScreenShare s o).result = Except.error e) := by
  constructor
  · intro hl
    by_cases hg : (!rc.published || !rc.localStream) = true <;>
      simp [AgoraWebClient.stopScreenShare, hs, AgoraRTCClient.unpublish, hu,
        AgoraRTCClient.leave, hl, hg]
  · intro e hl
    by_cases hg : (!rc.published || !rc.localStream) = true <;>
      simp [AgoraWebClient.stopScreenShare, hs, AgoraRTCClient.unpublish, hu,
        AgoraRTCClient.leave, hl, hg]

/-- Witness for C1's amended theorem: stopping the concrete active share
with an all-success SDK clears `shared` and returns normally. -/
theorem C1_stopShare_amended_witness :
    (AgoraWebClient.stopScreenShare webShared okOracle).state.shared = false
    ∧ (AgoraWebClient.stopScreenShare webShared okOracle).result = Except.ok () :=
  (C1_stopShare_amended webShared okOracle rcPublished rfl rfl).1 rfl

/-- C4 counterexample: nothing stops a caller from joining with uid 7; after
`joinChannel` with uid 7, the stream identifier `startScreenShare` binds to
the secondary session equals the primary channel uid, refuting "distinct for
every uid". -/
theorem C4_counterexample :
    ((AgoraWebClient.startScreenShare webUid7 okOracle).state.shareClient.map
        RTCState.streamID) = some (some webUid7.localUid)
    ∧ webUid7.localUid = 7 ∧ SHARE_ID = (7 : Int) := by
  refine ⟨rfl, rfl, rfl⟩

/-- In every branch of `startScreenShare` whose stream init succeeded, the
secondary session is bound to stream id `SHARE_ID`. -/
theorem startScreenShare_share_streamID (s : WebClientState) (o2 : SdkOracle)
    (hsi : o2.streamInitRes = SdkRes.ok) :
    ((AgoraWebClient.startScreenShare s o2).state.shareClient.map
        RTCState.streamID) = some (some SHARE_ID) := by
  have hr1 : AgoraRTCClient.createLocalStream initialRTC AgoraWebClient.shareSpec
      o2.streamInitRes o2.audioRes =
      ⟨⟨false, false, false, true, some SHARE_ID, false⟩,
        [Call.sdkCreateStream, Call.sdkStreamInit, Call.subscribeStreamEventsCall],
        Settle.resolved 0⟩ := by
    rw [hsi]
    rfl
  unfold AgoraWebClient.startScreenShare
  rw [hr1]
  rcases h2 : o2.initRes with _ | e2 <;>
    rcases h3 : o2.joinRes with _ | e3 <;>
      rcases h4 : o2.publishErrAt with _ | ⟨t, e4⟩ <;>
        simp [AgoraRTCClient.createClient, AgoraRTCClient.initClient,
          AgoraRTCClient.join, AgoraRTCClient.publish, h2, h3, h4] <;>
        first
        | rfl
        | (by_cases ht : t < 300 <;> simp [ht])

/-- `joinChannel` records the requested uid as `localUid` in every branch,
success or failure. -/
theorem joinChannel_localUid (s : WebClientState) (uid : Int) (ch : String)
    (dual : Bool) (o : SdkOracle) :
    (AgoraWebClient.joinChannel s uid ch dual o).state.localUid = uid := by
  unfold AgoraWebClient.joinChannel
  by_cases hi : s.rtc.init <;>
    rcases h1 : o.initRes with _ | e1 <;>
      rcases h2 : o.joinRes with _ | e2 <;>
        rcases h3 : o.dualRes with _ | e3 <;>
          cases dual <;>
            simp [AgoraRTCClient.createClient, AgoraRTCClient.initClient,
              AgoraRTCClient.join, h1, h2, h3, hi]

/-- C4 amended: `startScreenShare` always binds the secondary session to the
fixed reserved identifier `SHARE_ID = 7`, so the identifier is distinct from
the primary uid exactly when that uid is not 7; the code contains no guard
enforcing this. -/
theorem C4_share_id_amended (s : WebClientState) (uid : Int) (ch : String) (dual : Bool)
    (o o2 : SdkOracle) (h7 : uid ≠ 7) (hsi : o2.streamInitRes = SdkRes.ok) :
    ((AgoraWebClient.startScreenShare (AgoraWebClient.joinChannel s uid ch dual o).state
        o2).state.shareClient.map RTCState.streamID) = some (some SHARE_ID)
    ∧ (AgoraWebClient.joinChannel s uid ch dual o).state.localUid = uid
    ∧ SHARE_ID ≠ uid := by
  refine ⟨startScreenShare_share_streamID _ o2 hsi, joinChannel_localUid s uid ch dual o, ?_⟩
  intro h
  exact h7 (by simpa [SHARE_ID] using h.symm)

/-- Witness for C4's amended theorem at uid 42. -/
theorem C4_share_id_amended_witness :
    ((AgoraWebClient.startScreenShare
        (AgoraWebClient.joinChannel initialWeb 42 "room1" false okOracle).state
        okOracle).state.shareClient.map RTCState.streamID) = some (some SHARE_ID)
    ∧ (AgoraWebClient.joinChannel initialWeb 42 "room1" false okOracle).state.localUid = 42
    ∧ SHARE_ID ≠ (42 : Int) :=
  C4_share_id_amended initialWeb 42 "room1" false okOracle okOracle (by decide) rfl

/-- With no unpublish error and a succeeding SDK `leave`, `leaveChannel`
completes normally, clears `joined` and `published`, and leaves the primary
session without a local stream (so a repeat call's unpublish is a no-op). -/
theorem leaveChannel_ok_fields (s : WebClientState) (o : SdkOracle)
    (hu : o.unpublishErrAt = none) (hl : o.leaveRes = SdkRes.ok) :
    (AgoraWebClient.leaveChannel s o).state.joined = false
    ∧ (AgoraWebClient.leaveChannel s o).state.published = false
    ∧ (AgoraWebClient.leaveChannel s o).state.rtc.localStream = false
    ∧ (AgoraWebClient.leaveChannel s o).result = Except.ok () := by
  by_cases hg : (!s.rtc.published || !s.rtc.localStream) = true <;>
    simp [AgoraWebClient.leaveChannel, AgoraWebClient.unpublishLocalStream,
      AgoraRTCClient.unpublish, AgoraRTCClient.leave, AgoraRTCClient.destroy,
      AgoraRTCClient.destroyClient, AgoraRTCClient.destroyLocalStream, hu, hl, hg]

/-- C7: under a succeeding SDK, `leaveChannel` ends with the coordinator
flags `joined` and `published` both false and returns normally; calling it
again from the resulting state also returns normally (no throw); and from a
published state with a local stream its teardown trace is exactly
SDK-unpublish, local-stream teardown, SDK-leave, then client teardown
(timer clear, stream teardown, client-event unsubscribe), in that order. -/
theorem C7_leaveChannel_contract (s : WebClientState) (o : SdkOracle)
    (hu : o.unpublishErrAt = none) (hl : o.leaveRes = SdkRes.ok) :
    (AgoraWebClient.leaveChannel s o).state.joined = false
    ∧ (AgoraWebClient.leaveChannel s o).state.published = false
    ∧ (AgoraWebClient.leaveChannel s o).result = Except.ok ()
    ∧ (AgoraWebClient.leaveChannel (AgoraWebClient.leaveChannel s o).state o).result =
        Except.ok ()
    ∧ (s.rtc.published = true → s.rtc.localStream = true →
        (AgoraWebClient.leaveChannel s o).calls =
          [Call.sdkUnpublish, Call.destroyLocalStreamCall, Call.sdkLeave,
           Call.clearTimerCall, Call.destroyLocalStreamCall,
           Call.unsubscribeClientEventsCall]) := by
  obtain ⟨h1, h2, h3, h4⟩ := leaveChannel_ok_fields s o hu hl
  refine ⟨h1, h2, h4, (leaveChannel_ok_fields _ o hu hl).2.2.2, ?_⟩
  intro hp hls
  simp [AgoraWebClient.leaveChannel, AgoraWebClient.unpublishLocalStream,
    AgoraRTCClient.unpublish, AgoraRTCClient.leave, AgoraRTCClient.destroy,
    AgoraRTCClient.destroyClient, AgoraRTCClient.destroyCalls,
    AgoraRTCClient.destroyClientCalls, hu, hl, hp, hls]

/-- Witness for C7 at a concrete joined, published coordinator state. -/
theorem C7_leaveChannel_contract_witness :
    (AgoraWebClient.leaveChannel webJoined okOracle).state.joined = false
    ∧ (AgoraWebClient.leaveChannel webJoined okOracle).state.published = false
    ∧ (AgoraWebClient.leaveChannel webJoined okOracle).result = Except.ok ()
    ∧ (AgoraWebClient.leaveChannel (AgoraWebClient.leaveChannel webJoined okOracle).state
        okOracle).result = Except.ok ()
    ∧ (AgoraWebClient.leaveChannel webJoined okOracle).calls =
        [Call.sdkUnpublish, Call.destroyLocalStreamCall, Call.sdkLeave,
         Call.clearTimerCall, Call.destroyLocalStreamCall,
         Call.unsubscribeClientEventsCall] := by
  obtain ⟨h1, h2, h3, h4, h5⟩ := C7_leaveChannel_contract webJoined okOracle rfl rfl
  exact ⟨h1, h2, h3, h4, h5 rfl rfl⟩

/-- `joinChannel` never touches the screen-share fields. -/
theorem joinChannel_share_preserve (s : WebClientState) (uid : Int) (ch : String)
    (dual : Bool) (o : SdkOracle) :
    (AgoraWebClient.joinChannel s uid ch dual o).state.shareClient = s.shareClient
    ∧ (AgoraWebClient.joinChannel s uid ch dual o).state.shared = s.shared := by
  unfold AgoraWebClient.joinChannel
  by_cases hi : s.rtc.init <;>
    rcases h1 : o.initRes with _ | e1 <;>
      rcases h2 : o.joinRes with _ | e2 <;>
        rcases h3 : o.dualRes with _ | e3 <;>
          cases dual <;>
            simp [AgoraRTCClient.createClient, AgoraRTCClient.initClient,
              AgoraRTCClient.join, h1, h2, h3, hi]

/-- `unpublishLocalStream` never touches the screen-share fields. -/
theorem unpublishLocalStream_share_preserve (s : WebClientState) (o : SdkOracle) :
    (AgoraWebClient.unpublishLocalStream s o).state.shareClient = s.shareClient
    ∧ (AgoraWebClient.unpublishLocalStream s o).state.shared = s.shared := by
  unfold AgoraWebClient.unpublishLocalStream
  by_cases hg : (!s.rtc.published || !s.rtc.localStream) = true <;>
    rcases h : o.unpublishErrAt with _ | ⟨t, e⟩ <;>
      simp [AgoraRTCClient.unpublish, h, hg] <;>
        by_cases ht : t < 300 <;> simp [ht]

/-- `publishLocalCont` never touches the screen-share fields. -/
theorem publishLocalCont_share_preserve (s : WebClientState) (spec : AgoraStreamSpec)
    (o : SdkOracle) (acc : List Call) :
    (AgoraWebClient.publishLocalCont s spec o acc).state.shareClient = s.shareClient
    ∧ (AgoraWebClient.publishLocalCont s spec o acc).state.shared = s.shared := by
  unfold AgoraWebClient.publishLocalCont
  rcases h1 : o.streamInitRes with _ | e1 <;>
    by_cases hga : AgoraRTCClient.audioGuard spec = true <;>
      by_cases hp : s.rtc.published = true <;>
        rcases h4 : o.publishErrAt with _ | ⟨t, e4⟩ <;>
          simp [AgoraRTCClient.createLocalStream, AgoraRTCClient.publish,
            h1, hga, hp, h4] <;>
            by_cases ht : t < 300 <;> simp [ht]

/-- `publishLocalStream` never touches the screen-share fields. -/
theorem publishLocalStream_share_preserve (s : WebClientState) (spec : AgoraStreamSpec)
    (o : SdkOracle) :
    (AgoraWebClient.publishLocalStream s spec o).state.shareClient = s.shareClient
    ∧ (AgoraWebClient.publishLocalStream s spec o).state.shared = s.shared := by
  unfold AgoraWebClient.publishLocalStream
  have hu := unpublishLocalStream_share_preserve s o
  by_cases hp : s.published = true
  · cases hres : (AgoraWebClient.unpublishLocalStream s o).result with
    | error e =>
      simp [hp, hres, hu.1, hu.2]
    | ok _ =>
      have hc := publishLocalCont_share_preserve
        (AgoraWebClient.unpublishLocalStream s o).state spec o
        (AgoraWebClient.unpublishLocalStream s o).calls
      simp [hp, hres, hc.1, hc.2, hu.1, hu.2]
  · have hc := publishLocalCont_share_preserve s spec o []
    simp [hp, hc.1, hc.2]

/-- `leaveChannel` never touches the screen-share fields. -/
theorem leaveChannel_share_preserve (s : WebClientState) (o : SdkOracle) :
    (AgoraWebClient.leaveChannel s o).state.shareClient = s.shareClient
    ∧ (AgoraWebClient.leaveChannel s o).state.shared = s.shared := by
  unfold AgoraWebClient.leaveChannel
  have hu := unpublishLocalStream_share_preserve
    { s with localUid := 0, channel := "" } o
  cases hres : (AgoraWebClient.unpublishLocalStream
      { s with localUid := 0, channel := "" } o).result with
  | error e =>
    simp [hres, hu.1, hu.2]
  | ok _ =>
    cases hlv : o.leaveRes <;>
      simp [hres, AgoraRTCClient.leave, hlv, hu.1, hu.2]

/-- `startScreenShare` always installs a (non-null) secondary session before
anything can fail. -/
theorem startScreenShare_isSome (s : WebClientState) (o : SdkOracle) :
    (AgoraWebClient.startScreenShare s o).state.shareClient.isSome = true := by
  unfold AgoraWebClient.startScreenShare
  rcases h1 : o.streamInitRes with _ | e1 <;>
    rcases h2 : o.initRes with _ | e2 <;>
      rcases h3 : o.joinRes with _ | e3 <;>
        rcases h4 : o.publishErrAt with _ | ⟨t, e4⟩ <;>
          simp [AgoraRTCClient.createLocalStream, AgoraWebClient.shareSpec,
            AgoraRTCClient.audioGuard, AgoraRTCClient.createClient,
            AgoraRTCClient.initClient, AgoraRTCClient.join, AgoraRTCClient.publish,
            initialRTC, h1, h2, h3, h4] <;>
            by_cases ht : t < 300 <;> simp [ht]

/-- `stopScreenShare` preserves existence of the secondary session, and can
only switch `shared` off, never on. -/
theorem stopScreenShare_share_shape (s : WebClientState) (o : SdkOracle) :
    (AgoraWebClient.stopScreenShare s o).state.shareClient.isSome = s.shareClient.isSome
    ∧ ((AgoraWebClient.stopScreenShare s o).state.shared = true → s.shared = true) := by
  unfold AgoraWebClient.stopScreenShare
  cases hsc : s.shareClient with
  | none => simp [hsc]
  | some rc =>
    by_cases hg : (!rc.published || !rc.localStream) = true <;>
      rcases h : o.unpublishErrAt with _ | ⟨t, e⟩ <;>
        cases hlv : o.leaveRes <;>
          simp [AgoraRTCClient.unpublish, AgoraRTCClient.leave, hg, h, hlv, hsc] <;>
            by_cases ht : t < 300 <;> simp [ht]

/-- The destroy phase of `exit` touches neither existence of the secondary
session nor `shared`. -/
theorem exitDestroyPhase_share (s : WebClientState) (acc : List Call) :
    (AgoraWebClient.exitDestroyPhase s acc).state.shareClient.isSome = s.shareClient.isSome
    ∧ (AgoraWebClient.exitDestroyPhase s acc).state.shared = s.shared := by
  unfold AgoraWebClient.exitDestroyPhase
  cases hsc : s.shareClient <;> simp [hsc]

/-- `exit` preserves existence of the secondary session and (notably) never
resets `shared`. -/
theorem exit_share_shape (s : WebClientState) (o oShare : SdkOracle) :
    (AgoraWebClient.exit s o oShare).state.shareClient.isSome = s.shareClient.isSome
    ∧ (AgoraWebClient.exit s o oShare).state.shared = s.shared := by
  unfold AgoraWebClient.exit
  have hl := leaveChannel_share_preserve s o
  cases hres : (AgoraWebClient.leaveChannel s o).result with
  | error e =>
    simp [hres, hl.1, hl.2]
  | ok _ =>
    by_cases hsh : (AgoraWebClient.leaveChannel s o).state.shared = true
    · cases hsc : (AgoraWebClient.leaveChannel s o).state.shareClient with
      | none =>
        simp [hres, hsh, hsc, ← hl.1, hl.2]
        exact hl.2.symm.trans hsh
      | some rc =>
        by_cases hg : (!rc.published || !rc.localStream) = true <;>
          rcases h : oShare.unpublishErrAt with _ | ⟨t, e⟩ <;>
            cases hlv : oShare.leaveRes <;>
              simp [AgoraRTCClient.unpublish, AgoraRTCClient.leave,
                AgoraWebClient.exitDestroyPhase, hres, hsh, hsc, hg, h, hlv,
                hl.2, ← hl.1] <;>
                first
                | exact hl.2.symm.trans hsh
                | (by_cases ht : t < 300 <;> simp [ht] <;>
                    exact hl.2.symm.trans hsh)
    · have hd := exitDestroyPhase_share
        (AgoraWebClient.leaveChannel s o).state
        (AgoraWebClient.leaveChannel s o).calls
      have hsh2 : (AgoraWebClient.leaveChannel s o).state.shared = false := by
        simpa using hsh
      simp [hres, hsh2, hd.1, hd.2, hl.1]
      try exact hl.2.symm.trans hsh2

/-- C8 counterexample: the state reached by constructor → successful
`startScreenShare` → successful `exit` is reachable, has `shared = true`
(`exit` never resets the flag), yet its secondary session has been
unpublished and destroyed, so it has not "completed its join+publish
sequence" in any live sense — refuting the invariant over all reachable
states. -/
theorem C8_counterexample :
    Reach webAfterExit
    ∧ webAfterExit.shared = true
    ∧ shareLive webAfterExit = false :=
  ⟨Reach.exit webAfterShare okOracle okOracle
      (Reach.startScreenShare initialWeb okOracle Reach.start),
   rfl, rfl⟩

/-- C8 amended: over all reachable coordinator states, `shared = true` still
implies the secondary session object exists (`shareClient` is non-null);
the stronger live-session reading fails because `exit` (and a
partially-failed `stopScreenShare`) tears the session down without
clearing `shared`. -/
theorem C8_share_invariant_amended (s : WebClientState) (hr : Reach s)
    (hs : s.shared = true) : s.shareClient.isSome = true := by
  induction hr with
  | start => cases hs
  | joinChannel s uid ch dual o _ ih =>
    have hp := joinChannel_share_preserve s uid ch dual o
    rw [hp.1]
    exact ih (hp.2.symm.trans hs)
  | leaveChannel s o _ ih =>
    have hp := leaveChannel_share_preserve s o
    rw [hp.1]
    exact ih (hp.2.symm.trans hs)
  | publishLocalStream s spec o _ ih =>
    have hp := publishLocalStream_share_preserve s spec o
    rw [hp.1]
    exact ih (hp.2.symm.trans hs)
  | unpublishLocalStream s o _ ih =>
    have hp := unpublishLocalStream_share_preserve s o
    rw [hp.1]
    exact ih (hp.2.symm.trans hs)
  | startScreenShare s o _ _ =>
    exact startScreenShare_isSome s o
  | stopScreenShare s o _ ih =>
    have hp := stopScreenShare_share_shape s o
    rw [hp.1]
    exact ih (hp.2 hs)
  | exit s o oShare _ ih =>
    have hp := exit_share_shape s o oShare
    rw [hp.1]
    exact ih (hp.2.symm.trans hs)

/-- Witness for C8's amended theorem: the reachable state right after a
successful `startScreenShare` has `shared = true` and a present secondary
session. -/
theorem C8_share_invariant_amended_witness :
    Reach webAfterShare
    ∧ webAfterShare.shared = true
    ∧ webAfterShare.shareClient.isSome = true :=
  ⟨Reach.startScreenShare initialWeb okOracle Reach.start, rfl,
   C8_share_invariant_amended webAfterShare
     (Reach.startScreenShare initialWeb okOracle Reach.start) rfl⟩
